import Mathlib

/-!
Shallow embedding of `src/app/detection/components/RotationControl.tsx`.

The component's numeric values are JavaScript numbers; the component only
ever combines them with `+`, `-`, `%`, `Math.abs`, `Math.min`, `Math.max`
and `parseInt`, so we model them as exact rationals (`ℚ`).  JavaScript's
`%` is the truncated remainder (sign of the dividend), which we model with
`jsTrunc`/`jsMod` below.
-/

namespace RotationControl

/-- Truncation toward zero, as JavaScript division underlying `%` does:
floor for nonnegative arguments, ceiling for negative ones. -/
def jsTrunc (q : ℚ) : ℤ :=
  if 0 ≤ q then ⌊q⌋ else ⌈q⌉

/-- JavaScript's `%` operator on numbers: `x % y = x - y * trunc (x / y)`,
the remainder carrying the sign of the dividend. -/
def jsMod (x y : ℚ) : ℚ :=
  x - y * (jsTrunc (x / y) : ℚ)

/-- `normalizeRotation` from the source (lines 47–51):
`const normalized = value % 360; return normalized < 0 ? normalized + 360 : normalized`. -/
def normalizeRotation (value : ℚ) : ℚ :=
  let normalized := jsMod value 360
  if normalized < 0 then normalized + 360 else normalized

/-- The `clientX`/`clientY` coordinates of a DOM mouse event, the only fields
the component reads from mouse events. -/
structure MouseEvent where
  clientX : ℚ
  clientY : ℚ

/-- One contact point of a DOM touch event (`touch.clientX`, `touch.clientY`). -/
structure Touch where
  clientX : ℚ
  clientY : ℚ

/-- The `dragStart` state: `{ x, y, rotation }` recorded at gesture start. -/
structure DragStart where
  x : ℚ
  y : ℚ
  rotation : ℚ

/-- `handleMouseDown` (lines 54–57): sets `isDragging` to true and records the
pointer position and the current `rotation` prop as the drag baseline. -/
def handleMouseDown (rotation : ℚ) (e : MouseEvent) : Bool × DragStart :=
  (true, ⟨e.clientX, e.clientY, rotation⟩)

/-- `handleTouchStart` (lines 60–66): only when exactly one touch is active
does it enter the dragging state and record the baseline; otherwise state is
unchanged. -/
def handleTouchStart (rotation : ℚ) (touches : List Touch)
    (isDragging : Bool) (dragStart : DragStart) : Bool × DragStart :=
  match touches with
  | [touch] => (true, ⟨touch.clientX, touch.clientY, rotation⟩)
  | _ => (isDragging, dragStart)

/-- `handleMouseMove` (lines 69–75): when dragging, reports
`normalizeRotation (dragStart.rotation + (e.clientX - dragStart.x))` through
`onChange` (modelled as `some _`); otherwise no report (`none`). -/
def handleMouseMove (isDragging : Bool) (dragStart : DragStart)
    (e : MouseEvent) : Option ℚ :=
  if isDragging then
    some (normalizeRotation (dragStart.rotation + (e.clientX - dragStart.x)))
  else
    none

/-- The observable outcome of a handler that may call `e.preventDefault()`
and may call `onChange`. -/
structure HandlerEffect where
  preventDefault : Bool
  change : Option ℚ

/-- `handleTouchMove` (lines 78–86): returns early unless dragging with
exactly one active touch; otherwise calls `preventDefault` and reports the
normalized horizontal delta from the baseline. -/
def handleTouchMove (isDragging : Bool) (dragStart : DragStart)
    (touches : List Touch) : HandlerEffect :=
  match isDragging, touches with
  | true, [touch] =>
      ⟨true, some (normalizeRotation (dragStart.rotation + (touch.clientX - dragStart.x)))⟩
  | _, _ => ⟨false, none⟩

/-- `handleKeyDown` (lines 118–126): left arrow reports
`normalizeRotation (rotation - 15)`, right arrow `normalizeRotation (rotation + 15)`,
each calling `preventDefault`; other keys do nothing. -/
def handleKeyDown (rotation : ℚ) (key : String) : HandlerEffect :=
  if key = "ArrowLeft" then
    ⟨true, some (normalizeRotation (rotation - 15))⟩
  else if key = "ArrowRight" then
    ⟨true, some (normalizeRotation (rotation + 15))⟩
  else
    ⟨false, none⟩

/-- The counter-clockwise button's `onClick` (line 190):
`onChange(normalizeRotation(rotation - 15))`. -/
def rotateCounterClockwiseClick (rotation : ℚ) : ℚ :=
  normalizeRotation (rotation - 15)

/-- The clockwise button's `onClick` (line 241):
`onChange(normalizeRotation(rotation + 15))`. -/
def rotateClockwiseClick (rotation : ℚ) : ℚ :=
  normalizeRotation (rotation + 15)

/-- Whitespace characters skipped by JavaScript `parseInt` (the common ones;
the component's numeric field only produces plain decimal text). -/
def isJsSpace (c : Char) : Bool :=
  c == ' ' || c == '\t' || c == '\n' || c == '\r'

/-- Decimal value of a run of digit characters. -/
def digitsToNat (ds : List Char) : ℕ :=
  ds.foldl (fun acc c => 10 * acc + (c.toNat - 48)) 0

/-- Strips an optional leading sign, as `parseInt` does after whitespace. -/
def stripSign : List Char → ℤ × List Char
  | [] => (1, [])
  | c :: rest =>
      if c = '-' then (-1, rest)
      else if c = '+' then (1, rest)
      else (1, c :: rest)

/-- Hexadecimal digit characters, accepted by `parseInt` after a `0x`/`0X`
prefix. -/
def isHexDigitChar (c : Char) : Bool :=
  c.isDigit || ('a' ≤ c && c ≤ 'f') || ('A' ≤ c && c ≤ 'F')

/-- Value of one hexadecimal digit character. -/
def hexDigitVal (c : Char) : ℕ :=
  if c.isDigit then c.toNat - 48
  else if 'a' ≤ c && c ≤ 'f' then c.toNat - 87
  else c.toNat - 55

/-- Hexadecimal value of a run of hex digit characters. -/
def hexDigitsToNat (ds : List Char) : ℕ :=
  ds.foldl (fun acc c => 16 * acc + hexDigitVal c) 0

/-- After whitespace and sign, `parseInt` with no radix treats a leading
`0x`/`0X` as the hexadecimal marker. -/
def hasHexMark : List Char → Bool
  | '0' :: c :: _ => c = 'x' || c = 'X'
  | _ => false

/-- JavaScript `parseInt(s)` with no radix argument (the host builtin called
at line 130): skip leading whitespace, read an optional sign, then either a
`0x`/`0X` marker followed by the longest run of hexadecimal digits, or the
longest leading run of decimal digits; an empty digit run means `NaN`,
modelled as `none`. -/
def jsParseInt (s : String) : Option ℤ :=
  let body := stripSign (s.data.dropWhile isJsSpace)
  if hasHexMark body.2 then
    let hs := (body.2.drop 2).takeWhile isHexDigitChar
    if hs.isEmpty then none
    else some (body.1 * (hexDigitsToNat hs : ℤ))
  else
    let ds := body.2.takeWhile Char.isDigit
    if ds.isEmpty then none
    else some (body.1 * (digitsToNat ds : ℤ))

/-- `handleInputChange` (lines 129–133):
`const value = parseInt(e.target.value) || 0` (so `NaN` coerces to 0) followed
by `Math.max(0, Math.min(359, Math.abs(value)))`, the result reported via
`onChange`. -/
def handleInputChange (raw : String) : ℤ :=
  let value : ℤ := (jsParseInt raw).getD 0
  max 0 (min 359 |value|)

/-- Component state relevant to the listener lifecycle: the two `useState`
cells plus whether the `useEffect` (lines 99–115) currently has the global
document listeners attached, and whether the component is mounted. -/
structure CState where
  isDragging : Bool
  dragStart : DragStart
  listenersAttached : Bool
  mounted : Bool

/-- The events the component can observe: element-level pointer-down events,
document-level move/up events (delivered only while the global listeners are
attached), and teardown. `rotation` carries the current prop value at the
moment a gesture starts. -/
inductive UIEvent where
  | mouseDown (e : MouseEvent) (rotation : ℚ)
  | touchStart (touches : List Touch) (rotation : ℚ)
  | mouseMove (e : MouseEvent)
  | touchMove (touches : List Touch)
  | mouseUp
  | touchEnd
  | unmount

/-- The `useEffect` at lines 99–115, re-run after each state change: the
document listeners are attached exactly when `isDragging` holds (and the
component is mounted); its cleanup detaches them. -/
def effectSync (s : CState) : CState :=
  { s with listenersAttached := s.isDragging && s.mounted }

/-- One dispatched event: the handler runs, then the effect re-synchronizes
the listeners. Document-level move/up/end handlers can only run while the
listeners are attached; element-level down handlers require the component to
be mounted. The second component is the value passed to `onChange`, if any. -/
def step (s : CState) : UIEvent → CState × Option ℚ
  | .mouseDown e r =>
      if s.mounted then
        let t := handleMouseDown r e
        (effectSync { s with isDragging := t.1, dragStart := t.2 }, none)
      else (s, none)
  | .touchStart ts r =>
      if s.mounted then
        let t := handleTouchStart r ts s.isDragging s.dragStart
        (effectSync { s with isDragging := t.1, dragStart := t.2 }, none)
      else (s, none)
  | .mouseMove e =>
      if s.listenersAttached then (s, handleMouseMove s.isDragging s.dragStart e)
      else (s, none)
  | .touchMove ts =>
      if s.listenersAttached then (s, (handleTouchMove s.isDragging s.dragStart ts).change)
      else (s, none)
  | .mouseUp =>
      if s.listenersAttached then (effectSync { s with isDragging := false }, none)
      else (s, none)
  | .touchEnd =>
      if s.listenersAttached then (effectSync { s with isDragging := false }, none)
      else (s, none)
  | .unmount => ({ s with mounted := false, listenersAttached := false }, none)

/-- The listeners are attached exactly while a drag is in progress on a
mounted component. -/
def listenerInvariant (s : CState) : Prop :=
  s.listenersAttached = (s.isDragging && s.mounted)

lemma jsMod_of_nonneg {x : ℚ} (h : 0 ≤ x) :
    jsMod x 360 = 360 * Int.fract (x / 360) := by
  have hq : 0 ≤ x / 360 := by positivity
  unfold jsMod jsTrunc
  rw [if_pos hq, Int.fract]
  ring

lemma jsMod_of_neg_fract_zero {x : ℚ} (hq : ¬ 0 ≤ x / 360)
    (hz : Int.fract (x / 360) = 0) : jsMod x 360 = 0 := by
  have hfl : (⌊x / 360⌋ : ℚ) = x / 360 := by
    unfold Int.fract at hz
    linarith
  have hceil : ⌈x / 360⌉ = ⌊x / 360⌋ := by
    have h0 := Int.ceil_intCast (α := ℚ) ⌊x / 360⌋
    rw [hfl] at h0
    exact h0
  unfold jsMod jsTrunc
  rw [if_neg hq, hceil, hfl]
  field_simp

lemma ceil_eq_floor_add_one_of_fract_ne {q : ℚ} (h : Int.fract q ≠ 0) :
    ⌈q⌉ = ⌊q⌋ + 1 := by
  have hlt : (⌊q⌋ : ℚ) < q := by
    rcases lt_or_eq_of_le (Int.floor_le q) with h1 | h1
    · exact h1
    · exact absurd (by unfold Int.fract; rw [← h1]; simp) h
  have h1 : ⌊q⌋ < ⌈q⌉ := Int.lt_ceil.mpr hlt
  have h2 : ⌈q⌉ ≤ ⌊q⌋ + 1 := by
    rw [Int.ceil_le]
    push_cast
    exact le_of_lt (Int.lt_floor_add_one q)
  omega

lemma jsMod_of_neg_fract_ne {x : ℚ} (hq : ¬ 0 ≤ x / 360)
    (hz : Int.fract (x / 360) ≠ 0) :
    jsMod x 360 = 360 * Int.fract (x / 360) - 360 := by
  unfold jsMod jsTrunc
  rw [if_neg hq, ceil_eq_floor_add_one_of_fract_ne hz, Int.fract]
  push_cast
  field_simp
  ring

/-- Master lemma: on exact arithmetic the whole normalizer is
`360 * fract (x / 360)`. -/
theorem normalizeRotation_eq_fract (x : ℚ) :
    normalizeRotation x = 360 * Int.fract (x / 360) := by
  have hnn : 0 ≤ Int.fract (x / 360) := Int.fract_nonneg _
  have hlt : Int.fract (x / 360) < 1 := Int.fract_lt_one _
  unfold normalizeRotation
  by_cases h : 0 ≤ x
  · rw [jsMod_of_nonneg h, if_neg (by nlinarith)]
  · have hq : ¬ 0 ≤ x / 360 := by
      have hx : x < 0 := lt_of_not_le h
      exact not_le.mpr (div_neg_of_neg_of_pos hx (by norm_num))
    by_cases hz : Int.fract (x / 360) = 0
    · rw [jsMod_of_neg_fract_zero hq hz, if_neg (by norm_num), hz]
      ring
    · by_cases hzero : 360 * Int.fract (x / 360) - 360 < 0
      · rw [jsMod_of_neg_fract_ne hq hz, if_pos hzero]
        ring
      · exact absurd (by nlinarith) hzero

/-- C1: for every (real-modelled) input `x`, `normalizeRotation x` lies in
`[0, 360)`; negative inputs wrap into the positive range.  The function is a
total Lean function, so purity/totality hold by construction. -/
theorem normalizeRotation_mem_Ico (x : ℚ) :
    0 ≤ normalizeRotation x ∧ normalizeRotation x < 360 := by
  rw [normalizeRotation_eq_fract]
  constructor
  · nlinarith [Int.fract_nonneg (x / 360)]
  · nlinarith [Int.fract_lt_one (x / 360)]

/-- C5: `normalizeRotation` is 360-periodic: for every `x` and integer `k`,
`normalizeRotation x = normalizeRotation (x + 360 * k)`. -/
theorem normalizeRotation_periodic (x : ℚ) (k : ℤ) :
    normalizeRotation x = normalizeRotation (x + 360 * k) := by
  rw [normalizeRotation_eq_fract, normalizeRotation_eq_fract]
  have hdiv : (x + 360 * (k : ℚ)) / 360 = x / 360 + (k : ℚ) := by
    field_simp
    ring
  rw [hdiv, Int.fract_add_int]

lemma normalizeRotation_130 : normalizeRotation 130 = 130 := by
  rw [normalizeRotation_eq_fract]
  norm_num [Int.fract]

/-- C2: during a drag, every mouse-move and single-touch move reports
`normalizeRotation (baselineRotation + (clientX - baselineX))`; a drag that
starts at rotation 100 with the pointer moved +30px reports 130. -/
theorem drag_move_reports_baseline_plus_dx :
    (∀ (ds : DragStart) (e : MouseEvent),
        handleMouseMove true ds e
          = some (normalizeRotation (ds.rotation + (e.clientX - ds.x)))) ∧
    (∀ (ds : DragStart) (t : Touch),
        (handleTouchMove true ds [t]).change
          = some (normalizeRotation (ds.rotation + (t.clientX - ds.x)))) ∧
    handleMouseMove true ⟨0, 0, 100⟩ ⟨30, 17⟩ = some 130 := by
  refine ⟨fun ds e => rfl, fun ds t => rfl, ?_⟩
  show some (normalizeRotation (100 + (30 - 0))) = some 130
  rw [show (100 : ℚ) + (30 - 0) = 130 by norm_num, normalizeRotation_130]

/-- C3: the numeric field parses the raw text with `parseInt` (non-numeric
input coercing to 0), takes the absolute value and clamps to `[0, 359]`;
typing "-20" yields 20, not 340. -/
theorem input_change_parses_abs_clamps :
    (∀ (s : String) (v : ℤ), jsParseInt s = some v →
        handleInputChange s = max 0 (min 359 |v|)) ∧
    (∀ s : String, jsParseInt s = none → handleInputChange s = 0) ∧
    (∀ s : String, 0 ≤ handleInputChange s ∧ handleInputChange s ≤ 359) ∧
    handleInputChange "-20" = 20 := by
  refine ⟨?_, ?_, ?_, ?_⟩
  · intro s v h
    simp [handleInputChange, h]
  · intro s h
    simp [handleInputChange, h]
  · intro s
    refine ⟨le_max_left _ _, max_le (by norm_num) (min_le_left _ _)⟩
  · rfl

/-- C4: the clockwise button and the right arrow report
`normalizeRotation (r + 15)`, the counter-clockwise button and the left arrow
report `normalizeRotation (r - 15)` (both arrows suppressing the default key
behavior); increment at 350 yields 5 and decrement at 5 yields 350. -/
theorem step_controls_shift_by_fifteen :
    (∀ r : ℚ, rotateClockwiseClick r = normalizeRotation (r + 15)) ∧
    (∀ r : ℚ, rotateCounterClockwiseClick r = normalizeRotation (r - 15)) ∧
    (∀ r : ℚ, handleKeyDown r "ArrowRight"
        = ⟨true, some (normalizeRotation (r + 15))⟩) ∧
    (∀ r : ℚ, handleKeyDown r "ArrowLeft"
        = ⟨true, some (normalizeRotation (r - 15))⟩) ∧
    rotateClockwiseClick 350 = 5 ∧
    rotateCounterClockwiseClick 5 = 350 := by
  refine ⟨fun r => rfl, fun r => rfl, fun r => rfl, fun r => rfl, ?_, ?_⟩
  · show normalizeRotation (350 + 15) = 5
    rw [show (350 : ℚ) + 15 = 365 by norm_num, normalizeRotation_eq_fract]
    norm_num [Int.fract]
  · show normalizeRotation (5 - 15) = 350
    rw [show (5 : ℚ) - 15 = -10 by norm_num, normalizeRotation_eq_fract]
    norm_num [Int.fract]

/-- C7: a touch-move whose number of active touches is not exactly 1 reports
nothing, and a single-finger touch-move during a drag calls `preventDefault`. -/
theorem touch_move_requires_single_touch :
    (∀ (d : Bool) (ds : DragStart) (ts : List Touch),
        ts.length ≠ 1 → (handleTouchMove d ds ts).change = none) ∧
    (∀ (ds : DragStart) (t : Touch),
        (handleTouchMove true ds [t]).preventDefault = true) := by
  constructor
  · intro d ds ts h
    cases d
    · rfl
    · rcases ts with _ | ⟨t1, _ | ⟨t2, rest⟩⟩
      · rfl
      · exact absurd rfl h
      · rfl
  · intro ds t
    rfl

/-- C7 witness: a concrete two-finger move during a drag reports nothing. -/
theorem touch_move_requires_single_touch_witness :
    ([(⟨0, 0⟩ : Touch), ⟨1, 1⟩].length ≠ 1) ∧
      (handleTouchMove true ⟨0, 0, 0⟩ [⟨0, 0⟩, ⟨1, 1⟩]).change = none :=
  ⟨by decide,
    touch_move_requires_single_touch.1 true ⟨0, 0, 0⟩ [⟨0, 0⟩, ⟨1, 1⟩] (by decide)⟩

/-- C9: the reported rotation never depends on vertical coordinates: two move
events with equal `clientX` report the same value, and the baseline `y` is
never consulted. -/
theorem drag_independent_of_vertical :
    (∀ (d : Bool) (ds : DragStart) (e1 e2 : MouseEvent), e1.clientX = e2.clientX →
        handleMouseMove d ds e1 = handleMouseMove d ds e2) ∧
    (∀ (d : Bool) (ds : DragStart) (t1 t2 : Touch), t1.clientX = t2.clientX →
        handleTouchMove d ds [t1] = handleTouchMove d ds [t2]) ∧
    (∀ (d : Bool) (x y1 y2 r : ℚ) (e : MouseEvent),
        handleMouseMove d ⟨x, y1, r⟩ e = handleMouseMove d ⟨x, y2, r⟩ e) ∧
    (∀ (d : Bool) (x y1 y2 r : ℚ) (ts : List Touch),
        handleTouchMove d ⟨x, y1, r⟩ ts = handleTouchMove d ⟨x, y2, r⟩ ts) := by
  refine ⟨?_, ?_, ?_, ?_⟩
  · intro d ds e1 e2 hx
    simp [handleMouseMove, hx]
  · intro d ds t1 t2 hx
    cases d <;> simp [handleTouchMove, hx]
  · intro d x y1 y2 r e
    rfl
  · intro d x y1 y2 r ts
    cases d
    · rfl
    · rcases ts with _ | ⟨t1, _ | ⟨t2, rest⟩⟩ <;> rfl

/-- C9 witness: two concrete moves at the same `clientX` but different
`clientY` report the same rotation. -/
theorem drag_independent_of_vertical_witness :
    (⟨5, 0⟩ : MouseEvent).clientX = (⟨5, 99⟩ : MouseEvent).clientX ∧
      handleMouseMove true ⟨0, 0, 0⟩ ⟨5, 0⟩ = handleMouseMove true ⟨0, 0, 0⟩ ⟨5, 99⟩ :=
  ⟨rfl, drag_independent_of_vertical.1 true ⟨0, 0, 0⟩ ⟨5, 0⟩ ⟨5, 99⟩ rfl⟩

/-- C6: the concrete values required by the spec:
`normalizeRotation (-10) = 350`, `normalizeRotation 370 = 10`,
`normalizeRotation 0 = 0`, `normalizeRotation 360 = 0`. -/
theorem normalizeRotation_concrete :
    normalizeRotation (-10) = 350 ∧ normalizeRotation 370 = 10 ∧
      normalizeRotation 0 = 0 ∧ normalizeRotation 360 = 0 := by
  refine ⟨?_, ?_, ?_, ?_⟩ <;>
    rw [normalizeRotation_eq_fract] <;> norm_num [Int.fract]

/-- C3 witness: instantiating the parse equation at the concrete text "-20". -/
theorem input_change_parses_abs_clamps_witness :
    jsParseInt "-20" = some (-20) ∧
      handleInputChange "-20" = max 0 (min 359 |(-20 : ℤ)|) :=
  ⟨rfl, input_change_parses_abs_clamps.1 "-20" (-20) rfl⟩

lemma isJsSpace_eq_false_of_isDigit {c : Char} (h : c.isDigit = true) :
    isJsSpace c = false := by
  cases hs : isJsSpace c
  · rfl
  · exfalso
    have hc : ((c = ' ' ∨ c = '\t') ∨ c = '\n') ∨ c = '\r' := by
      simpa [isJsSpace] using hs
    rcases hc with ((rfl | rfl) | rfl) | rfl <;> exact absurd h (by decide)

lemma takeWhile_digit_append (ds t : List Char) (h1 : ∀ c ∈ ds, c.isDigit = true)
    (h2 : ∀ c, t.head? = some c → c.isDigit = false) :
    (ds ++ t).takeWhile Char.isDigit = ds := by
  induction ds with
  | nil =>
      cases t with
      | nil => rfl
      | cons c rest => simp [List.takeWhile_cons, h2 c rfl]
  | cons d ds ih =>
      have hd : d.isDigit = true := h1 d (by simp)
      simp only [List.cons_append, List.takeWhile_cons, hd, if_true]
      rw [ih (fun c hc => h1 c (by simp [hc]))]

/-- C10 counterexample: "0x10" begins with the digit run "0" followed by the
non-digit character 'x', yet `parseInt` with no radix reads the `0x` marker
and parses hexadecimal, so the field reports 16, not the prefix value 0. -/
theorem input_change_hex_marker_counterexample :
    ('0').isDigit = true ∧ ('x').isDigit = false ∧
    jsParseInt "0x10" = some 16 ∧
    jsParseInt "0x10" ≠ some ((digitsToNat ['0'] : ℤ)) ∧
    handleInputChange "0x10" = 16 :=
  ⟨rfl, rfl, rfl, by decide, rfl⟩

/-- C10 (amended): any text made of a nonempty digit run followed by a
non-digit tail, except when it starts with the hexadecimal marker `0x`/`0X`,
parses to that digit run (so "12abc" reports 12 and "12.7" reports 12); text
starting with the hex marker parses as hexadecimal ("0x10" reports 16); text
with no leading integer (after the `|| 0` coercion of `NaN`) reports 0. -/
theorem input_change_digit_run_amended :
    (∀ (ds t : List Char), ds ≠ [] → (∀ c ∈ ds, c.isDigit = true) →
        (∀ c, t.head? = some c → c.isDigit = false) →
        hasHexMark (ds ++ t) = false →
        jsParseInt (String.mk (ds ++ t)) = some ((digitsToNat ds : ℤ))) ∧
    (∀ s : String, jsParseInt s = none → handleInputChange s = 0) ∧
    handleInputChange "0x10" = 16 ∧
    handleInputChange "12abc" = 12 ∧ handleInputChange "12.7" = 12 ∧
    handleInputChange "" = 0 ∧ handleInputChange "abc" = 0 := by
  refine ⟨?_, ?_, rfl, rfl, rfl, rfl, rfl⟩
  · intro ds t hne h1 h2 hhex
    rcases ds with _ | ⟨d, ds⟩
    · exact absurd rfl hne
    · have hd : d.isDigit = true := h1 d (by simp)
      have hspace : isJsSpace d = false := isJsSpace_eq_false_of_isDigit hd
      have hdash : ¬ d = '-' := by rintro rfl; exact absurd hd (by decide)
      have hplus : ¬ d = '+' := by rintro rfl; exact absurd hd (by decide)
      have hdata : (String.mk ((d :: ds) ++ t)).data = (d :: ds) ++ t := rfl
      have hdrop : List.dropWhile isJsSpace (d :: (ds ++ t)) = d :: (ds ++ t) := by
        simp [List.dropWhile_cons, hspace]
      have hstrip : stripSign (d :: (ds ++ t)) = (1, d :: (ds ++ t)) := by
        simp only [stripSign]
        rw [if_neg hdash, if_neg hplus]
      have hhex2 : hasHexMark (d :: (ds ++ t)) = false := by
        rw [← List.cons_append]
        exact hhex
      have htake2 : List.takeWhile Char.isDigit (d :: (ds ++ t)) = d :: ds :=
        takeWhile_digit_append (d :: ds) t h1 h2
      simp only [jsParseInt, hdata, List.cons_append, hdrop, hstrip, hhex2, htake2]
      simp
  · intro s h
    simp [handleInputChange, h]

/-- C10 witness: the digit-run equation applied at "12abc", and "xy" (no
leading integer) reporting 0. -/
theorem input_change_digit_run_amended_witness :
    jsParseInt (String.mk (['1', '2'] ++ ['a', 'b', 'c']))
        = some ((digitsToNat ['1', '2'] : ℤ)) ∧
      handleInputChange "xy" = 0 :=
  ⟨input_change_digit_run_amended.1 ['1', '2'] ['a', 'b', 'c'] (by decide) (by decide)
      (fun c hc => by
        simp at hc
        subst hc
        decide)
      (by decide),
    input_change_digit_run_amended.2.1 "xy" rfl⟩

lemma listenerInvariant_effectSync (s : CState) :
    listenerInvariant (effectSync s) := rfl

/-- C8: the document listeners are attached exactly while a drag is in
progress (the invariant is preserved by every event), every exit from the
dragging state — mouse-up, touch-end or unmount — leaves them detached, and a
pointer-move after a drag has ended reports nothing. -/
theorem listener_lifecycle :
    (∀ (s : CState) (e : UIEvent),
        listenerInvariant s → listenerInvariant (step s e).1) ∧
    (∀ s : CState, (step s .mouseUp).1.listenersAttached = false) ∧
    (∀ s : CState, (step s .touchEnd).1.listenersAttached = false) ∧
    (∀ s : CState, (step s .unmount).1.listenersAttached = false) ∧
    (∀ (s : CState) (e : MouseEvent),
        (step (step s .mouseUp).1 (.mouseMove e)).2 = none) ∧
    (∀ (s : CState) (ts : List Touch),
        (step (step s .touchEnd).1 (.touchMove ts)).2 = none) := by
  have hup : ∀ s : CState, (step s .mouseUp).1.listenersAttached = false := by
    intro s
    cases ha : s.listenersAttached <;> simp [step, effectSync, ha]
  have hend : ∀ s : CState, (step s .touchEnd).1.listenersAttached = false := by
    intro s
    cases ha : s.listenersAttached <;> simp [step, effectSync, ha]
  refine ⟨?_, hup, hend, ?_, ?_, ?_⟩
  · intro s e h
    cases e with
    | mouseDown e r =>
        cases hm : s.mounted
        · simpa [step, hm] using h
        · simpa [step, hm] using listenerInvariant_effectSync _
    | touchStart ts r =>
        cases hm : s.mounted
        · simpa [step, hm] using h
        · simpa [step, hm] using listenerInvariant_effectSync _
    | mouseMove e =>
        cases ha : s.listenersAttached <;> simpa [step, ha] using h
    | touchMove ts =>
        cases ha : s.listenersAttached <;> simpa [step, ha] using h
    | mouseUp =>
        cases ha : s.listenersAttached
        · simpa [step, ha] using h
        · simpa [step, ha] using listenerInvariant_effectSync _
    | touchEnd =>
        cases ha : s.listenersAttached
        · simpa [step, ha] using h
        · simpa [step, ha] using listenerInvariant_effectSync _
    | unmount => simp [step, listenerInvariant]
  · intro s
    simp [step]
  · intro s e
    set s1 := (step s UIEvent.mouseUp).1 with hs1
    have h1 : s1.listenersAttached = false := hup s
    simp [step, h1]
  · intro s ts
    set s1 := (step s UIEvent.touchEnd).1 with hs1
    have h1 : s1.listenersAttached = false := hend s
    simp [step, h1]

/-- C8 witness: the invariant is preserved when a concrete mid-drag state
receives a mouse-up. -/
theorem listener_lifecycle_witness :
    listenerInvariant ⟨true, ⟨0, 0, 0⟩, true, true⟩ ∧
      listenerInvariant (step ⟨true, ⟨0, 0, 0⟩, true, true⟩ .mouseUp).1 :=
  ⟨rfl, listener_lifecycle.1 ⟨true, ⟨0, 0, 0⟩, true, true⟩ .mouseUp rfl⟩

end RotationControl
